import Mathlib

/-!
Verification of the scoring and decision engine of The Curve Room 2.0
(`js/game-engine.js`).  JavaScript numbers are modelled as exact
integers (`Int`) and, for the variance computation, exact rationals
(`Rat`); the JavaScript value `NaN`, which arises only when a missing
array index is read, is modelled by `Option Int` with `none` standing
for a NaN result.
-/

namespace CurveRoom

/-- Per-path accumulators `pathScores = \x7b winNow, rebuild, hybrid \x7d` of
`DecisionEngine`; also the shape of a decision's `pathWeights` record
(a key missing from the record contributes weight 0). -/
structure PathScores where
  winNow : Int
  rebuild : Int
  hybrid : Int
deriving DecidableEq

/-- The `forEach` over `Object.keys(decision.pathWeights)` in
`DecisionEngine.applyDecision`: componentwise addition of the weights
onto the accumulators. -/
def addWeights (s w : PathScores) : PathScores :=
  ⟨s.winNow + w.winNow, s.rebuild + w.rebuild, s.hybrid + w.hybrid⟩

/-- A decision's `flags` record: `lock` and `unlock` tag lists. -/
structure DecisionFlags where
  lock : List String
  unlock : List String
deriving DecidableEq

/-- A decision option from the per-year catalog consumed by
`DecisionEngine`; fields the engine logic never reads (title,
description, strategy metadata) are omitted. -/
structure Decision where
  id : String
  payrollPercentage : Int
  flags : DecisionFlags
  pathWeights : PathScores
deriving DecidableEq

/-- `team.decisions`, a year-indexed catalog; a year with no entry in
the JSON object yields the empty list (`getAllDecisions` returns `[]`
for it). -/
def Catalog : Type := Int → List Decision

/-- The mutable state of `DecisionEngine`: the five per-year decision
slots, the `activeFlags` set (a JavaScript `Set`, modelled as a
duplicate-free-by-construction list in insertion order) and the
per-path accumulators. -/
structure DEState where
  decisions : List (Option String)
  activeFlags : List String
  pathScores : PathScores
deriving DecidableEq

/-- The constructor state: five empty slots, no flags, zero scores. -/
def initDEState : DEState :=
  ⟨[none, none, none, none, none], [], ⟨0, 0, 0⟩⟩

/-- `Set.prototype.add`: appends the flag unless already present. -/
def addFlag (fs : List String) (f : String) : List String :=
  if f ∈ fs then fs else fs ++ [f]

/-- `DecisionEngine.findDecision`: look the option id up in the year's
catalog (`Array.prototype.find`). -/
def findDecision (cat : Catalog) (year : Int) (id : String) : Option Decision :=
  (cat year).find? (fun d => d.id == id)

/-- The slot write `this.decisions[year - 1] = decisionId`.  An in-range
index updates the slot; a write at a negative index or past the end of
the five slots leaves the five year slots themselves unchanged (in
JavaScript it creates a stray property or element beyond them). -/
def setSlot (l : List (Option String)) (i : Int) (v : Option String) :
    List (Option String) :=
  if 0 ≤ i then l.set i.toNat v else l

/-- `DecisionEngine.applyDecision`: returns `null` (here `none`) and
leaves the state untouched when the option is not found for that year;
otherwise records the id at the year slot, adds the lock tags and then
the unlock tags to the active set, and adds the path weights to the
accumulators. -/
def applyDecision (cat : Catalog) (st : DEState) (year : Int) (id : String) :
    Option Decision × DEState :=
  match findDecision cat year id with
  | none => (none, st)
  | some d =>
      (some d,
        { decisions := setSlot st.decisions (year - 1) (some id)
          activeFlags := (d.flags.lock ++ d.flags.unlock).foldl addFlag st.activeFlags
          pathScores := addWeights st.pathScores d.pathWeights })

/-- A sequence of `applyDecision` calls, keeping only the state. -/
def applyAll (cat : Catalog) (ops : List (Int × String)) (st : DEState) : DEState :=
  ops.foldl (fun s op => (applyDecision cat s op.1 op.2).2) st

/-- `DecisionEngine.getAvailableDecisions`: the year's options none of
whose lock tags is active. -/
def getAvailableDecisions (cat : Catalog) (st : DEState) (year : Int) : List Decision :=
  (cat year).filter (fun d => !(d.flags.lock.any (fun f => st.activeFlags.contains f)))

/-- `DecisionEngine.determinePath` (`Math.max(a, b, c)` is
`max a (max b c)`). -/
def determinePath (s : PathScores) : String :=
  let maxScore := max s.winNow (max s.rebuild s.hybrid)
  if s.hybrid = maxScore ∧ s.hybrid > min s.winNow s.rebuild then "hybrid"
  else if s.winNow = maxScore ∧ s.winNow > s.rebuild then "winNow"
  else if s.rebuild = maxScore then "rebuild"
  else "hybrid"

/-- Per-year points for the absolute difference `d` between a curve
value and the target value (slider branch of
`GameEngine.calculateHealthScore`); for `d > 30` the integer division
agrees with `Math.floor` because `d - 30` is positive. -/
def yearPoints (d : Int) : Int :=
  if d ≤ 5 then 20
  else if d ≤ 10 then 17
  else if d ≤ 15 then 14
  else if d ≤ 20 then 10
  else if d ≤ 30 then 6
  else max 0 (4 - (d - 30) / 10)

/-- `GameEngine.calculateVariance`: population variance, the mean of
squared deviations from the mean, computed exactly over `Rat`. -/
def calculateVariance (arr : List Int) : Rat :=
  let mean : Rat := (arr.map (fun x => (x : Rat))).sum / (arr.length : Rat)
  ((arr.map (fun x => ((x : Rat) - mean) ^ 2)).sum) / (arr.length : Rat)

/-- `curve.indexOf(Math.max(...curve))`: index of the first occurrence
of the maximum value, `-1` for the empty array. -/
def peakIdx (l : List Int) : Int :=
  match l.max? with
  | some m => (l.indexOf m : Int)
  | none => -1

/-- One year's `Math.abs(curve[i] - target[i])`; `none` models the `NaN`
JavaScript produces when either index is missing. -/
def diffAt (c t : List Int) (i : Nat) : Option Int := do
  let x ← c.get? i
  let y ← t.get? i
  pure |x - y|

/-- The per-year points accumulated by the `for (let i = 0; i < 5; i++)`
loop of the slider branch; a missing index turns the JavaScript running
total into `NaN`, modelled by `none`. -/
def baseSum (c t : List Int) : Option Int := do
  let d0 ← diffAt c t 0
  let d1 ← diffAt c t 1
  let d2 ← diffAt c t 2
  let d3 ← diffAt c t 3
  let d4 ← diffAt c t 4
  pure (0 + yearPoints d0 + yearPoints d1 + yearPoints d2 + yearPoints d3 + yearPoints d4)

/-- Slider-mode scoring of `GameEngine.calculateHealthScore` as a
function of the two curves: per-year points, flatline penalty, peak
timing bonus, final clamp.  A `NaN` total stays `NaN` through
`Math.max`, `+ 5` and the clamp, hence the single `Option.map`; the
variance comparison and peak indices are real whenever the total is. -/
def scoreAgainstTarget (curve target : List Int) : Option Int :=
  (baseSum curve target).map (fun base =>
    let afterPenalty := if calculateVariance curve < 50 then max 0 (base - 15) else base
    let afterBonus := if peakIdx curve = peakIdx target then afterPenalty + 5 else afterPenalty
    min 100 (max 0 afterBonus))

/-- `GameEngine.scoreByPath`.  The `path` argument is the string
produced by `determinePath`; any string other than winNow or rebuild
falls into the final `else`, the hybrid branch, as in the source. -/
def scoreByPath (path : String) (curve : List Int) : Int :=
  let score :=
    if path = "winNow" then
      let s1 := (curve.take 3).foldl
        (fun s p => s + (if p ≥ 85 then 15 else if p ≥ 80 then 12 else if p ≥ 75 then 8 else 0)) 0
      let s2 := ((curve.drop 3).take 2).foldl
        (fun s p => s + (if p ≤ 70 then 10 else if p ≤ 75 then 7 else if p ≤ 80 then 4 else 0)) s1
      s2 + (if curve.dedup.length ≥ 4 then 8 else 0)
    else if path = "rebuild" then
      let s1 := (curve.take 3).foldl
        (fun s p => s + (if p ≤ 65 then 15 else if p ≤ 70 then 12 else if p ≤ 75 then 8 else 0)) 0
      let s2 := ((curve.drop 3).take 2).foldl
        (fun s p => s + (if p ≥ 80 then 10 else if p ≥ 75 then 7 else if p ≥ 70 then 4 else 0)) s1
      s2 + (if curve.dedup.length ≥ 4 then 8 else 0)
    else
      let acc := curve.foldl
        (fun sp p =>
          if 70 ≤ p ∧ p ≤ 80 then (sp.1 + 15, sp.2 + 1)
          else if 65 ≤ p ∧ p ≤ 85 then (sp.1 + 10, sp.2)
          else sp)
        ((0 : Int), (0 : Nat))
      acc.1 + (if acc.2 ≥ 3 then 10 else 0)
  min 100 (max 0 score)

/-- The slice of `GameEngine.state` read by its scoring and by
`setPayroll`: the five payroll slots, the ideal curve (with the
fallback `[60, 75, 100, 80, 60]` already substituted when no team is
loaded), the game mode string, the optional decision engine, and the
cached health score (`Option` because a malformed ideal curve makes the
JavaScript score `NaN`). -/
structure GEState where
  payrollDecisions : List Int
  idealCurve : List Int
  gameMode : String
  decisionEngine : Option DEState
  healthScore : Option Int
deriving DecidableEq

/-- `GameEngine.calculateHealthScore` as a function of the state: the
decision branch scores by the determined path and re-applies the final
clamp, exactly as the source does after either branch; the slider
branch compares the user curve with the ideal curve. -/
def calcHealth (st : GEState) : Option Int :=
  if st.gameMode = "decisions" then
    match st.decisionEngine with
    | some de =>
        some (min 100 (max 0 (scoreByPath (determinePath de.pathScores) st.payrollDecisions)))
    | none => scoreAgainstTarget st.payrollDecisions st.idealCurve
  else scoreAgainstTarget st.payrollDecisions st.idealCurve

/-- `GameEngine.setPayroll`: inside `[1, 5]` the year's slot is written
and the health score recomputed; outside that range the guard fails and
the state is returned unchanged. -/
def setPayroll (st : GEState) (year payrollPercent : Int) : GEState :=
  if 1 ≤ year ∧ year ≤ 5 then
    let st' := { st with
      payrollDecisions := st.payrollDecisions.set (year - 1).toNat payrollPercent }
    { st' with healthScore := calcHealth st' }
  else st

/-- The three strategy paths `determinePath` can yield, used to index
the claim-code tables of `finishGame`. -/
inductive GamePath
  | winNow
  | rebuild
  | hybrid
deriving DecidableEq

/-- `GameEngine.CLAIM_CODES.GOLD[path].code`. -/
def goldCode : GamePath → String
  | .winNow => "CURVE-301-CHAMPION"
  | .rebuild => "CURVE-301-ARCHITECT"
  | .hybrid => "CURVE-301-STRATEGIST"

/-- `GameEngine.CLAIM_CODES.SILVER[path].code`. -/
def silverCode : GamePath → String
  | .winNow => "CURVE-301-CONTENDER"
  | .rebuild => "CURVE-301-BUILDER"
  | .hybrid => "CURVE-301-NEGOTIATOR"

/-- `GameEngine.CLAIM_CODES.BRONZE[path].code`. -/
def bronzeCode : GamePath → String
  | .winNow => "CURVE-301-SPENDER"
  | .rebuild => "CURVE-301-DEVELOPER"
  | .hybrid => "CURVE-301-BALANCED"

/-- The claim code, tier and XP returned by `GameEngine.finishGame`
(the feedback text is omitted). -/
structure RewardOutcome where
  claimCode : Option String
  tier : Option String
  xp : Int
deriving DecidableEq

/-- The reward part of `GameEngine.finishGame` as a function of the
final score and the determined path (`none` in slider mode, where no
decision engine exists and `path` stays `null`). -/
def finishReward (path : Option GamePath) (score : Int) : RewardOutcome :=
  if score ≥ 85 then
    { claimCode := some (match path with | some p => goldCode p | none => "CURVE-301-GOLD")
      tier := some "GOLD", xp := 250 }
  else if score ≥ 70 then
    { claimCode := some (match path with | some p => silverCode p | none => "CURVE-301-SILVER")
      tier := some "SILVER", xp := 175 }
  else if score ≥ 55 then
    { claimCode := some (match path with | some p => bronzeCode p | none => "CURVE-301-BRONZE")
      tier := some "BRONZE", xp := 125 }
  else { claimCode := none, tier := none, xp := 0 }

/-! Spec-side reference definitions, written from the specification's
wording so that the source embedding can be compared against them. -/

/-- The spec's per-year breakpoint table (§4.1): d≤5→20, d≤10→17,
d≤15→14, d≤20→10, d≤30→6, else `max(0, 4 - floor((d-30)/10))`. -/
def specPoints (d : Int) : Int :=
  if d ≤ 5 then 20
  else if d ≤ 10 then 17
  else if d ≤ 15 then 14
  else if d ≤ 20 then 10
  else if d ≤ 30 then 6
  else max 0 (4 - (d - 30) / 10)

/-- The spec's population variance: the mean of squared deviations from
the mean. -/
def specVariance (arr : List Int) : Rat :=
  let mean : Rat := (arr.map (fun x => (x : Rat))).sum / (arr.length : Rat)
  ((arr.map (fun x => ((x : Rat) - mean) ^ 2)).sum) / (arr.length : Rat)

/-- The spec's tie rule for the peak position: the first (lowest) index
of the maximum value. -/
def specFirstMaxIdx (l : List Int) : Int :=
  match l.max? with
  | some m => (l.indexOf m : Int)
  | none => -1

/-- The reference computation of claim C2: per-year points from the
breakpoints, summed over the 5 indices; then the flatline penalty of 15
(intermediate result clamped at 0) exactly when the curve's population
variance is below 50; then the 5-point peak-timing bonus when the first
maximum indices agree; finally the sum clamped to `[0, 100]`. -/
def scoreAgainstTargetSpec (c t : List Int) : Int :=
  let base := (List.zipWith (fun x y => specPoints |x - y|) c t).sum
  let afterPenalty := if specVariance c < 50 then max 0 (base - 15) else base
  let afterBonus := if specFirstMaxIdx c = specFirstMaxIdx t then afterPenalty + 5 else afterPenalty
  min 100 (max 0 afterBonus)

/-- The spec's resolution order for `determinePath` (§4.2): hybrid when
it reaches the maximum and strictly exceeds the smaller of the other
two; else winNow when it reaches the maximum and strictly exceeds
rebuild; else rebuild when it reaches the maximum; else hybrid. -/
def specPathResolution (s : PathScores) : String :=
  let m := max s.winNow (max s.rebuild s.hybrid)
  if s.hybrid = m ∧ min s.winNow s.rebuild < s.hybrid then "hybrid"
  else if s.winNow = m ∧ s.rebuild < s.winNow then "winNow"
  else if s.rebuild = m then "rebuild"
  else "hybrid"

/-- The one-option-per-year example catalog of claim C1: each year
offers the option `{id := "A", payroll := 90,
pathWeights := {winNow := 25, rebuild := -15, hybrid := 5}}`. -/
def exDecision : Decision := ⟨"A", 90, ⟨[], []⟩, ⟨25, -15, 5⟩⟩

/-- The year-indexed catalog holding `exDecision` for years 1–5. -/
def exCatalog : Catalog := fun y => if 1 ≤ y ∧ y ≤ 5 then [exDecision] else []

theorem specPoints_eq : specPoints = yearPoints := rfl

theorem specVariance_eq : specVariance = calculateVariance := rfl

theorem specFirstMaxIdx_eq : specFirstMaxIdx = peakIdx := rfl

/-- A 5-element list is a literal 5-tuple of its entries. -/
theorem length_five {α : Type} (l : List α) (h : l.length = 5) :
    ∃ a b c d e, l = [a, b, c, d, e] := by
  rcases l with _ | ⟨a, _ | ⟨b, _ | ⟨c, _ | ⟨d, _ | ⟨e, _ | ⟨f, l⟩⟩⟩⟩⟩⟩ <;>
    simp only [List.length_cons, List.length_nil] at h
  · omega
  · omega
  · omega
  · omega
  · omega
  · exact ⟨a, b, c, d, e, rfl⟩
  · omega

/-! Claim C4. -/

/-- C4 (confirmed): for every triple of integer accumulators,
`determinePath` returns exactly what the spec's four-step resolution
order dictates. -/
theorem c4_resolution_order (s : PathScores) :
    determinePath s = specPathResolution s := rfl

/-! Claim C5. -/

/-- C5 counterexample: on the accumulators `{winNow := 10,
rebuild := 10, hybrid := 10}` the engine does not return `"hybrid"` as
the claim states — the hybrid guard requires hybrid to strictly exceed
`min winNow rebuild`, so the all-equal triple falls through to the
rebuild branch. -/
theorem c5_counterexample :
    determinePath ⟨10, 10, 10⟩ ≠ "hybrid" ∧ determinePath ⟨10, 10, 10⟩ = "rebuild" := by
  constructor
  · decide
  · rfl

/-- C5 (corrected): `determinePath` returns `"rebuild"` (not
`"hybrid"`) on the all-equal accumulators `{10, 10, 10}`, `"winNow"` on
`{winNow := 12, rebuild := 10, hybrid := 10}`, and `"rebuild"` on
`{winNow := 5, rebuild := 12, hybrid := 5}`. -/
theorem c5_amended :
    determinePath ⟨10, 10, 10⟩ = "rebuild"
  ∧ determinePath ⟨12, 10, 10⟩ = "winNow"
  ∧ determinePath ⟨5, 12, 5⟩ = "rebuild" := by
  exact ⟨rfl, rfl, rfl⟩

/-! Claim C10. -/

/-- C10 (confirmed): `scoreByPath` is total in its path argument — for
every string other than `"winNow"` and `"rebuild"` and every 5-element
curve it returns the hybrid scoring of the curve. -/
theorem c10_hybrid_default (path : String) (curve : List Int)
    (_h5 : curve.length = 5) (h1 : path ≠ "winNow") (h2 : path ≠ "rebuild") :
    scoreByPath path curve = scoreByPath "hybrid" curve := by
  simp [scoreByPath, h1, h2]

/-- C10 witness: a concrete unknown path name scores like `"hybrid"`. -/
theorem c10_witness :
    scoreByPath "banana" [70, 72, 74, 76, 78] = scoreByPath "hybrid" [70, 72, 74, 76, 78] :=
  c10_hybrid_default "banana" [70, 72, 74, 76, 78] rfl (by decide) (by decide)

/-! Claim C6. -/

/-- C6 (confirmed): tier, claim code and XP are a fixed function of the
final score and the mode/path.  Score ≥ 85 is gold, 70–84 silver,
55–69 bronze, below 55 no tier, no code, 0 XP; in slider mode (no
path) the codes are CURVE-301-GOLD / SILVER / BRONZE, in decision mode
the per-path codes of the CLAIM_CODES table, with XP 250 / 175 / 125
per tier.  Instantiating the score at 84, 85, 54 and 55 yields the
claimed boundary behaviour. -/
theorem c6_reward_table (s : Int) :
    (85 ≤ s →
        finishReward none s = ⟨some "CURVE-301-GOLD", some "GOLD", 250⟩
      ∧ finishReward (some .winNow) s = ⟨some "CURVE-301-CHAMPION", some "GOLD", 250⟩
      ∧ finishReward (some .rebuild) s = ⟨some "CURVE-301-ARCHITECT", some "GOLD", 250⟩
      ∧ finishReward (some .hybrid) s = ⟨some "CURVE-301-STRATEGIST", some "GOLD", 250⟩)
  ∧ (70 ≤ s → s < 85 →
        finishReward none s = ⟨some "CURVE-301-SILVER", some "SILVER", 175⟩
      ∧ finishReward (some .winNow) s = ⟨some "CURVE-301-CONTENDER", some "SILVER", 175⟩
      ∧ finishReward (some .rebuild) s = ⟨some "CURVE-301-BUILDER", some "SILVER", 175⟩
      ∧ finishReward (some .hybrid) s = ⟨some "CURVE-301-NEGOTIATOR", some "SILVER", 175⟩)
  ∧ (55 ≤ s → s < 70 →
        finishReward none s = ⟨some "CURVE-301-BRONZE", some "BRONZE", 125⟩
      ∧ finishReward (some .winNow) s = ⟨some "CURVE-301-SPENDER", some "BRONZE", 125⟩
      ∧ finishReward (some .rebuild) s = ⟨some "CURVE-301-DEVELOPER", some "BRONZE", 125⟩
      ∧ finishReward (some .hybrid) s = ⟨some "CURVE-301-BALANCED", some "BRONZE", 125⟩)
  ∧ (s < 55 →
        finishReward none s = ⟨none, none, 0⟩
      ∧ finishReward (some .winNow) s = ⟨none, none, 0⟩
      ∧ finishReward (some .rebuild) s = ⟨none, none, 0⟩
      ∧ finishReward (some .hybrid) s = ⟨none, none, 0⟩) := by
  refine ⟨fun h => ⟨?_, ?_, ?_, ?_⟩, fun h h' => ⟨?_, ?_, ?_, ?_⟩,
          fun h h' => ⟨?_, ?_, ?_, ?_⟩, fun h => ⟨?_, ?_, ?_, ?_⟩⟩ <;>
    (simp only [finishReward, goldCode, silverCode, bronzeCode]
     split_ifs <;> first | rfl | omega)

/-- C6 witness: the silver boundary at score 84, slider and decision
mode. -/
theorem c6_witness :
    finishReward none 84 = ⟨some "CURVE-301-SILVER", some "SILVER", 175⟩
  ∧ finishReward (some .winNow) 84 = ⟨some "CURVE-301-CONTENDER", some "SILVER", 175⟩
  ∧ finishReward (some .rebuild) 84 = ⟨some "CURVE-301-BUILDER", some "SILVER", 175⟩
  ∧ finishReward (some .hybrid) 84 = ⟨some "CURVE-301-NEGOTIATOR", some "SILVER", 175⟩ :=
  (c6_reward_table 84).2.1 (by decide) (by decide)

/-! Claim C8. -/

/-- C8 (confirmed): with a catalog that has no entries outside years
1–5, a year outside `[1, 5]` passed to `setPayroll`,
`getAvailableDecisions` or `applyDecision` is rejected without any
state change (the source rejects by skipping the guarded mutation,
returning `[]`, respectively returning `null`), and an option id that
does not exist in the catalog for a given year makes `applyDecision`
return `null` with the year slots, active tag set and path accumulators
all unchanged.  (`getAvailableDecisions` is a pure query in the source
and mutates nothing on any input.) -/
theorem c8_reject_no_mutation (st : GEState) (cat : Catalog) (dst : DEState)
    (year payrollPercent : Int) (id : String) (y : Int) (d : String)
    (hcat : ∀ z : Int, (z < 1 ∨ 5 < z) → cat z = [])
    (hyear : year < 1 ∨ 5 < year)
    (hid : ∀ e ∈ cat y, e.id ≠ d) :
    setPayroll st year payrollPercent = st
  ∧ getAvailableDecisions cat dst year = []
  ∧ applyDecision cat dst year id = (none, dst)
  ∧ applyDecision cat dst y d = (none, dst) := by
  refine ⟨?_, ?_, ?_, ?_⟩
  · rw [setPayroll, if_neg (by omega)]
  · rw [getAvailableDecisions, hcat year hyear, List.filter_nil]
  · rw [applyDecision, findDecision, hcat year hyear]
    rfl
  · have hfd : findDecision cat y d = none := by
      rw [findDecision, List.find?_eq_none]
      intro e he
      simpa using hid e he
    rw [applyDecision, hfd]

/-- C8 witness: year 7 and an absent option id on concrete states. -/
theorem c8_witness :
    setPayroll ⟨[50, 50, 50, 50, 50], [60, 75, 100, 80, 60], "slider", none, some 50⟩ 7 90
      = ⟨[50, 50, 50, 50, 50], [60, 75, 100, 80, 60], "slider", none, some 50⟩
  ∧ getAvailableDecisions (fun _ => []) initDEState 7 = []
  ∧ applyDecision (fun _ => []) initDEState 7 "A" = (none, initDEState)
  ∧ applyDecision (fun _ => []) initDEState 3 "A" = (none, initDEState) :=
  c8_reject_no_mutation _ (fun _ => []) initDEState 7 90 "A" 3 "A"
    (fun _ _ => rfl) (Or.inr (by decide))
    (fun e he => absurd he (List.not_mem_nil e))

/-! Claim C9. -/

/-- A single `Set.add` keeps every existing member. -/
theorem subset_addFlag (fs : List String) (f : String) : fs ⊆ addFlag fs f := by
  intro a ha
  rw [addFlag]
  split
  · exact ha
  · exact List.mem_append_left _ ha

/-- Folding `Set.add` over a tag list keeps every existing member. -/
theorem subset_foldl_addFlag (l : List String) (fs : List String) :
    fs ⊆ l.foldl addFlag fs := by
  induction l generalizing fs with
  | nil => exact fun a h => h
  | cons f l ih =>
      exact List.Subset.trans (subset_addFlag fs f) (ih (addFlag fs f))

/-- Unfolding one step of `applyAll`. -/
theorem applyAll_cons (cat : Catalog) (op : Int × String) (ops : List (Int × String))
    (st : DEState) :
    applyAll cat (op :: ops) st = applyAll cat ops (applyDecision cat st op.1 op.2).2 := rfl

/-- C9 (confirmed): over every sequence of `applyDecision` calls the
active tag set only grows — a tag once added is never removed — and the
per-path accumulators end at the starting accumulators plus exactly the
path weights of the decisions that were found and applied along the
way; nothing is ever retracted, including when an already-chosen year
is overwritten. -/
theorem c9_monotone (cat : Catalog) (ops : List (Int × String)) (st : DEState) :
    st.activeFlags ⊆ (applyAll cat ops st).activeFlags
  ∧ (applyAll cat ops st).pathScores =
      (ops.filterMap (fun op => findDecision cat op.1 op.2)).foldl
        (fun acc dec => addWeights acc dec.pathWeights) st.pathScores := by
  induction ops generalizing st with
  | nil => exact ⟨fun a h => h, rfl⟩
  | cons op ops ih =>
      rw [applyAll_cons, List.filterMap_cons]
      cases hfd : findDecision cat op.1 op.2 with
      | none =>
          have hstep : (applyDecision cat st op.1 op.2).2 = st := by
            rw [applyDecision, hfd]
          rw [hstep]
          exact ih st
      | some dec =>
          have hstep : (applyDecision cat st op.1 op.2).2 =
              { decisions := setSlot st.decisions (op.1 - 1) (some op.2)
                activeFlags :=
                  (dec.flags.lock ++ dec.flags.unlock).foldl addFlag st.activeFlags
                pathScores := addWeights st.pathScores dec.pathWeights } := by
            rw [applyDecision, hfd]
          rw [hstep]
          refine ⟨?_, ?_⟩
          · exact List.Subset.trans
              (subset_foldl_addFlag (dec.flags.lock ++ dec.flags.unlock) st.activeFlags)
              (ih { decisions := setSlot st.decisions (op.1 - 1) (some op.2)
                    activeFlags :=
                      (dec.flags.lock ++ dec.flags.unlock).foldl addFlag st.activeFlags
                    pathScores := addWeights st.pathScores dec.pathWeights }).1
          · rw [List.foldl_cons]
            exact (ih { decisions := setSlot st.decisions (op.1 - 1) (some op.2)
                        activeFlags :=
                          (dec.flags.lock ++ dec.flags.unlock).foldl addFlag st.activeFlags
                        pathScores := addWeights st.pathScores dec.pathWeights }).2

/-! Claim C1. -/

/-- C1 counterexample: the curve `[85, 90, 95, 70, 65]` satisfies the
claim's hypothesis (years 1–3 at least 85, years 4–5 at most 70), yet
`scoreByPath "winNow"` gives it only 73, not at least 85 — the winNow
branch can award at most 15·3 + 10·2 + 8 = 73 points. -/
theorem c1_counterexample :
    (85 ≤ (85 : Int) ∧ 85 ≤ (90 : Int) ∧ 85 ≤ (95 : Int) ∧ (70 : Int) ≤ 70 ∧ (65 : Int) ≤ 70)
  ∧ scoreByPath "winNow" [85, 90, 95, 70, 65] = 73
  ∧ ¬ (85 ≤ scoreByPath "winNow" [85, 90, 95, 70, 65]) := by
  refine ⟨by decide, by decide, by decide⟩

/-- C1 (corrected): applying the five winNow-heavy decisions of the
example catalog makes `determinePath` return `"winNow"`; and every
5-element curve whose values are at least 85 in years 1–3 and at most
70 in years 4–5 earns a winNow score between 65 and 73 — not 85, which
`scoreByPath "winNow"` can never reach. -/
theorem c1_amended :
    determinePath (applyAll exCatalog [(1, "A"), (2, "A"), (3, "A"), (4, "A"), (5, "A")]
        initDEState).pathScores = "winNow"
  ∧ ∀ a b c d e : Int, 85 ≤ a → 85 ≤ b → 85 ≤ c → d ≤ 70 → e ≤ 70 →
      65 ≤ scoreByPath "winNow" [a, b, c, d, e]
      ∧ scoreByPath "winNow" [a, b, c, d, e] ≤ 73 := by
  constructor
  · decide
  · intro a b c d e ha hb hc hd he
    have ht3 : ([a, b, c, d, e] : List Int).take 3 = [a, b, c] := rfl
    have hd3 : (([a, b, c, d, e] : List Int).drop 3).take 2 = [d, e] := rfl
    unfold scoreByPath
    rw [if_pos rfl, ht3, hd3]
    simp only [List.foldl_cons, List.foldl_nil]
    rw [if_pos ha, if_pos hb, if_pos hc, if_pos hd, if_pos he]
    by_cases hdup : ([a, b, c, d, e] : List Int).dedup.length ≥ 4
    · rw [if_pos hdup]
      constructor <;> norm_num
    · rw [if_neg hdup]
      constructor <;> norm_num

/-- C1 witness: the bounds of the corrected claim at the concrete curve
`[85, 90, 95, 70, 65]`. -/
theorem c1_witness :
    65 ≤ scoreByPath "winNow" [85, 90, 95, 70, 65]
    ∧ scoreByPath "winNow" [85, 90, 95, 70, 65] ≤ 73 :=
  c1_amended.2 85 90 95 70 65 (by decide) (by decide) (by decide) (by decide) (by decide)

/-! Claim C2. -/

/-- C2 (confirmed): on every pair of 5-element integer sequences, the
source's slider scoring `scoreAgainstTarget` produces exactly the
spec's reference computation `scoreAgainstTargetSpec`: breakpoint
points summed over the 5 indices, then the flatline penalty (clamped at
0) exactly when the curve's population variance is below 50, then the
5-point peak-timing bonus when the first maximum indices agree, then
the final clamp to `[0, 100]`. -/
theorem c2_refinement (c t : List Int) (hc : c.length = 5) (ht : t.length = 5) :
    scoreAgainstTarget c t = some (scoreAgainstTargetSpec c t) := by
  obtain ⟨a1, a2, a3, a4, a5, rfl⟩ := length_five c hc
  obtain ⟨b1, b2, b3, b4, b5, rfl⟩ := length_five t ht
  have hbase : baseSum [a1, a2, a3, a4, a5] [b1, b2, b3, b4, b5]
      = some (0 + yearPoints |a1 - b1| + yearPoints |a2 - b2| + yearPoints |a3 - b3|
              + yearPoints |a4 - b4| + yearPoints |a5 - b5|) := by
    simp [baseSum, diffAt]
  have hsum : (List.zipWith (fun x y => specPoints |x - y|)
        [a1, a2, a3, a4, a5] [b1, b2, b3, b4, b5]).sum
      = 0 + yearPoints |a1 - b1| + yearPoints |a2 - b2| + yearPoints |a3 - b3|
        + yearPoints |a4 - b4| + yearPoints |a5 - b5| := by
    simp [List.zipWith, specPoints_eq]
    ring
  rw [scoreAgainstTarget, hbase, Option.map_some', scoreAgainstTargetSpec, hsum,
    specVariance_eq, specFirstMaxIdx_eq]

/-- C2 witness: the refinement at a concrete pair of curves. -/
theorem c2_witness :
    scoreAgainstTarget [55, 65, 95, 85, 55] [60, 75, 100, 80, 60]
      = some (scoreAgainstTargetSpec [55, 65, 95, 85, 55] [60, 75, 100, 80, 60]) :=
  c2_refinement [55, 65, 95, 85, 55] [60, 75, 100, 80, 60] rfl rfl

/-! Claim C3. -/

/-- The all-75 curve is flat: its population variance is 0, below 50. -/
theorem variance75 : calculateVariance [75, 75, 75, 75, 75] < 50 := by
  norm_num [calculateVariance]

/-- The default ideal curve has variance 220, not below 50. -/
theorem variance_ideal : ¬ calculateVariance [60, 75, 100, 80, 60] < 50 := by
  norm_num [calculateVariance]

/-- C3 counterexample: a curve equal to its target always earns the
peak-timing bonus as well, so `[75, 75, 75, 75, 75]` scores
100 − 15 + 5 = 90, not the 85 the claim states. -/
theorem c3_counterexample :
    scoreAgainstTarget [75, 75, 75, 75, 75] [75, 75, 75, 75, 75] = some 90
  ∧ (90 : Int) ≠ 85 := by
  have hbase : baseSum [75, 75, 75, 75, 75] [75, 75, 75, 75, 75] = some 100 := by
    simp [baseSum, diffAt, yearPoints]
  refine ⟨?_, by decide⟩
  rw [scoreAgainstTarget, hbase, Option.map_some', if_pos variance75]
  split_ifs with h
  · norm_num
  · exact absurd rfl h

/-- C3 (corrected): for every 5-element curve equal to its target,
`scoreAgainstTarget` returns 100 when the curve's population variance
is at least 50, and 90 — not 85 — when the variance is below 50: the
15-point flatline penalty is partially offset by the 5-point
peak-timing bonus, which always fires when curve and target coincide. -/
theorem c3_amended (c : List Int) (hc : c.length = 5) :
    scoreAgainstTarget c c = some (if calculateVariance c < 50 then 90 else 100) := by
  obtain ⟨a1, a2, a3, a4, a5, rfl⟩ := length_five c hc
  have hbase : baseSum [a1, a2, a3, a4, a5] [a1, a2, a3, a4, a5] = some 100 := by
    simp [baseSum, diffAt, yearPoints]
  rw [scoreAgainstTarget, hbase, Option.map_some']
  split_ifs with h1 h2 h3
  · norm_num
  · exact absurd rfl h2
  · norm_num
  · exact absurd rfl h3

/-- C3 witness: the default ideal curve against itself scores 100. -/
theorem c3_witness :
    scoreAgainstTarget [60, 75, 100, 80, 60] [60, 75, 100, 80, 60] = some 100 := by
  have h := c3_amended [60, 75, 100, 80, 60] rfl
  rwa [if_neg variance_ideal] at h

/-! Claim C7. -/

/-- A flat six-element curve also has variance 0, below 50. -/
theorem variance50six : calculateVariance [50, 50, 50, 50, 50, 50] < 50 := by
  norm_num [calculateVariance]

/-- C7 counterexample: `calculateHealthScore` performs no length
validation — a 6-element curve is not rejected with `InvalidInput`; the
loop reads only indices 0–4 and a full numeric score (33) is produced. -/
theorem c7_counterexample :
    ([50, 50, 50, 50, 50, 50] : List Int).length ≠ 5
  ∧ scoreAgainstTarget [50, 50, 50, 50, 50, 50] [60, 75, 100, 80, 60] = some 33 := by
  have hbase : baseSum [50, 50, 50, 50, 50, 50] [60, 75, 100, 80, 60] = some 48 := by
    norm_num [baseSum, diffAt, yearPoints]
  have hpeak : peakIdx [50, 50, 50, 50, 50, 50] ≠ peakIdx [60, 75, 100, 80, 60] := by
    decide
  refine ⟨by decide, ?_⟩
  rw [scoreAgainstTarget, hbase, Option.map_some', if_pos variance50six]
  split_ifs with h
  · exact absurd h hpeak
  · norm_num

/-- A year's difference is defined whenever both indices exist. -/
theorem diffAt_isSome {c t : List Int} {i : Nat} (hc : i < c.length) (ht : i < t.length) :
    ∃ d, diffAt c t i = some d := by
  refine ⟨|c.get ⟨i, hc⟩ - t.get ⟨i, ht⟩|, ?_⟩
  simp [diffAt, List.getElem?_eq_getElem hc, List.getElem?_eq_getElem ht, List.get_eq_getElem]

/-- C7 (corrected): no `InvalidInput` rejection exists.  Whenever both
sequences supply indices 0–4 — even with lengths other than 5 — the
scoring runs to completion and yields a numeric score. -/
theorem c7_amended (c t : List Int) (hc : 5 ≤ c.length) (ht : 5 ≤ t.length) :
    ∃ n, scoreAgainstTarget c t = some n := by
  obtain ⟨d0, h0⟩ := diffAt_isSome (c := c) (t := t) (i := 0) (by omega) (by omega)
  obtain ⟨d1, h1⟩ := diffAt_isSome (c := c) (t := t) (i := 1) (by omega) (by omega)
  obtain ⟨d2, h2⟩ := diffAt_isSome (c := c) (t := t) (i := 2) (by omega) (by omega)
  obtain ⟨d3, h3⟩ := diffAt_isSome (c := c) (t := t) (i := 3) (by omega) (by omega)
  obtain ⟨d4, h4⟩ := diffAt_isSome (c := c) (t := t) (i := 4) (by omega) (by omega)
  have hbase : baseSum c t
      = some (0 + yearPoints d0 + yearPoints d1 + yearPoints d2
              + yearPoints d3 + yearPoints d4) := by
    rw [baseSum]
    rw [h0, h1, h2, h3, h4]
    rfl
  rw [scoreAgainstTarget, hbase, Option.map_some']
  exact ⟨_, rfl⟩

/-- C7 witness: a numeric score exists for a concrete pair of
5-element curves. -/
theorem c7_witness :
    ∃ n, scoreAgainstTarget [40, 55, 70, 85, 100] [100, 85, 70, 55, 40] = some n :=
  c7_amended [40, 55, 70, 85, 100] [100, 85, 70, 55, 40] (by decide) (by decide)

end CurveRoom
